import Mathlib

/-!
Shallow embedding of the Enterprise Systems Catalog service
(`src/server/main.py`): the JSON-backed catalog store, the CRUD HTTP
handlers, and the chat endpoint's collaborator-forwarding logic.

Nondeterministic effects of the source are passed in explicitly:
* the wall clock (`datetime.now().isoformat()`) becomes a `now : String`
  argument;
* `generate_system_id`'s timestamp/random output becomes a
  `gen_id : String` argument (the store never checks it for collisions,
  exactly as in the source);
* the state of the backing file `db_data.json` becomes a `DiskState`
  (missing file / unreadable-or-corrupt contents / a decodable list of
  records), mirroring the `try ... except` in `load_systems`;
* the Hugging Face network interaction becomes a stream of
  `NetOutcome`s, one per POST the handler issues.

`save_systems` write faults (surfaced as 500 in the source) are outside
the properties verified here; a successful save replaces the disk state
with `DiskState.valid` of the full new list, as the source rewrites the
whole file.
-/

set_option autoImplicit false

namespace Catalog

/-- One persisted system record, mirroring the pydantic `System` model of
`src/server/main.py` (all fields are strings on disk, timestamps are
ISO-8601 strings). -/
structure System where
  system_id : String
  system_name : String
  system_description : String
  business_steward_email : String
  business_steward_full_name : String
  security_steward_email : String
  security_steward_full_name : String
  technical_steward_email : String
  technical_steward_full_name : String
  status : String
  created_at : String
  updated_at : String
deriving DecidableEq, Repr

/-- The validated create payload, mirroring the pydantic `SystemCreate`
model (after validation; `status` already defaulted to `"active"`). -/
structure SystemCreate where
  system_name : String
  system_description : String
  business_steward_email : String
  business_steward_full_name : String
  security_steward_email : String
  security_steward_full_name : String
  technical_steward_email : String
  technical_steward_full_name : String
  status : String
deriving DecidableEq, Repr

/-- The raw JSON body of a create request, before pydantic validation:
each field may be absent. (A field explicitly set to JSON `null` is
rejected by pydantic for these non-Optional fields and is not modelled
separately from absence.) -/
structure RawCreate where
  system_name : Option String
  system_description : Option String
  business_steward_email : Option String
  business_steward_full_name : Option String
  security_steward_email : Option String
  security_steward_full_name : Option String
  technical_steward_email : Option String
  technical_steward_full_name : Option String
  status : Option String
deriving DecidableEq, Repr

/-- The body of an update request, mirroring the pydantic `SystemUpdate`
model: every field optional; `none` means the field was not supplied
(`dict(exclude_unset=True)` drops it). -/
structure SystemUpdate where
  system_name : Option String := none
  system_description : Option String := none
  business_steward_email : Option String := none
  business_steward_full_name : Option String := none
  security_steward_email : Option String := none
  security_steward_full_name : Option String := none
  technical_steward_email : Option String := none
  technical_steward_full_name : Option String := none
  status : Option String := none
deriving DecidableEq, Repr

/-- An HTTP response: either a success with a status code and a typed
body, or an error with a status code and a `detail` string (FastAPI's
`HTTPException(status_code, detail)` serialises to
`{"detail": detail}`). -/
inductive Resp (α : Type) where
  | ok (status : Nat) (body : α)
  | err (status : Nat) (detail : String)
deriving DecidableEq, Repr

/-- The HTTP status code of a response. -/
def respStatus {α : Type} : Resp α → Nat
  | .ok status _ => status
  | .err status _ => status

/-- The state of the backing file `db_data.json`: absent, present but
unreadable/undecodable (any exception inside `load_systems`), or
decodable into a list of records. -/
inductive DiskState where
  | missing
  | corrupt
  | valid (systems : List System)
deriving DecidableEq, Repr

/-- Split a character list at every occurrence of `c`: the pieces do not
contain `c`, and n separators yield n+1 pieces. -/
def splitOnChar (c : Char) : List Char → List (List Char)
  | [] => [[]]
  | x :: xs =>
    let rest := splitOnChar c xs
    if x = c then [] :: rest
    else
      match rest with
      | h :: t => (x :: h) :: t
      | [] => [[x]]

/-- Modelled from the spec: "each a syntactically valid email address".
The source delegates email syntax to pydantic's `EmailStr` (the external
`email-validator` library, not part of this repository); this predicate
captures the syntactic core: exactly one `@`, a non-empty local part, a
domain of at least two non-empty dot-separated labels, and no spaces. -/
def isValidEmail (s : String) : Bool :=
  match splitOnChar '@' s.toList with
  | [lp, dom] =>
    !lp.isEmpty && !dom.isEmpty && !s.toList.any (· = ' ') &&
      ((splitOnChar '.' dom).length ≥ 2 &&
        (splitOnChar '.' dom).all (!·.isEmpty))
  | _ => false

/-- Pydantic validation of a create body against `SystemCreate`: every
non-defaulted field must be present, the three steward email fields must
be syntactically valid emails, and `status` defaults to `"active"`.
Returns `none` exactly when FastAPI would answer 422 before the handler
runs. -/
def parseCreate (r : RawCreate) : Option SystemCreate :=
  match r.system_name, r.system_description,
      r.business_steward_email, r.business_steward_full_name,
      r.security_steward_email, r.security_steward_full_name,
      r.technical_steward_email, r.technical_steward_full_name with
  | some nm, some desc, some be, some bn, some se, some sn, some te, some tn =>
    if isValidEmail be && isValidEmail se && isValidEmail te then
      some {
        system_name := nm
        system_description := desc
        business_steward_email := be
        business_steward_full_name := bn
        security_steward_email := se
        security_steward_full_name := sn
        technical_steward_email := te
        technical_steward_full_name := tn
        status := r.status.getD "active" }
    else none
  | _, _, _, _, _, _, _, _ => none

/-- Pydantic validation of an update body: each supplied email field must
be syntactically valid (absent fields are not checked). -/
def updateValid (u : SystemUpdate) : Bool :=
  (u.business_steward_email.map isValidEmail).getD true &&
    (u.security_steward_email.map isValidEmail).getD true &&
    (u.technical_steward_email.map isValidEmail).getD true

/-- Whether `dict(exclude_unset=True)` is non-empty, i.e. at least one
field was supplied in the update body. -/
def hasAnyField (u : SystemUpdate) : Bool :=
  u.system_name.isSome || u.system_description.isSome ||
    u.business_steward_email.isSome || u.business_steward_full_name.isSome ||
    u.security_steward_email.isSome || u.security_steward_full_name.isSome ||
    u.technical_steward_email.isSome || u.technical_steward_full_name.isSome ||
    u.status.isSome

/-- The `setattr` loop of `update_system`: overwrite exactly the supplied
fields of a record. -/
def applyUpdate (u : SystemUpdate) (s : System) : System :=
  { s with
    system_name := u.system_name.getD s.system_name
    system_description := u.system_description.getD s.system_description
    business_steward_email := u.business_steward_email.getD s.business_steward_email
    business_steward_full_name := u.business_steward_full_name.getD s.business_steward_full_name
    security_steward_email := u.security_steward_email.getD s.security_steward_email
    security_steward_full_name := u.security_steward_full_name.getD s.security_steward_full_name
    technical_steward_email := u.technical_steward_email.getD s.technical_steward_email
    technical_steward_full_name := u.technical_steward_full_name.getD s.technical_steward_full_name
    status := u.status.getD s.status }

/-- `load_systems` of `src/server/main.py`: a missing file yields `[]`,
any exception while reading/decoding yields `[]`, a decodable file yields
its records. -/
def load_systems : DiskState → List System
  | .missing => []
  | .corrupt => []
  | .valid l => l

/-- `POST /api/systems` (`create_system`): validate the body, load the
store, append a record built from the generated id and the current
timestamp (`created_at = updated_at = now`), save, return 201 with the
record. Validation failure yields 422 with the disk untouched. -/
def create_system (d : DiskState) (gen_id now : String) (r : RawCreate) :
    Resp System × DiskState :=
  match parseCreate r with
  | none => (.err 422 "validation error", d)
  | some sc =>
    let systems := load_systems d
    let system : System := {
      system_id := gen_id
      system_name := sc.system_name
      system_description := sc.system_description
      business_steward_email := sc.business_steward_email
      business_steward_full_name := sc.business_steward_full_name
      security_steward_email := sc.security_steward_email
      security_steward_full_name := sc.security_steward_full_name
      technical_steward_email := sc.technical_steward_email
      technical_steward_full_name := sc.technical_steward_full_name
      status := sc.status
      created_at := now
      updated_at := now }
    (.ok 201 system, .valid (systems ++ [system]))

/-- `GET /api/systems/{system_id}` (`get_system`): linear scan for the
first record with a matching id; 404 with detail "System not found"
otherwise. -/
def get_system (d : DiskState) (system_id : String) : Resp System :=
  match (load_systems d).find? (fun s => s.system_id == system_id) with
  | some s => .ok 200 s
  | none => .err 404 "System not found"

/-- `GET /api/systems` (`get_all_systems`): 200 with the loaded list. -/
def get_all_systems (d : DiskState) : Resp (List System) :=
  .ok 200 (load_systems d)

/-- The scan loop of `update_system`: at each record, if the id matches
AND the supplied field set is non-empty, mutate that record (supplied
fields plus `updated_at := now`) and stop; otherwise keep scanning. With
an empty field set the loop never returns and falls through to 404,
exactly as in the source. -/
def update_loop (now system_id : String) (u : SystemUpdate) :
    List System → Option (System × List System)
  | [] => none
  | s :: rest =>
    if s.system_id == system_id && hasAnyField u then
      let s' := { applyUpdate u s with updated_at := now }
      some (s', s' :: rest)
    else
      match update_loop now system_id u rest with
      | some (r, rest') => some (r, s :: rest')
      | none => none

/-- `PUT /api/systems/{system_id}` (`update_system`): validate supplied
fields, load, scan with `update_loop`, save on success; 404 (disk
untouched) when no iteration returns. -/
def update_system (d : DiskState) (now system_id : String) (u : SystemUpdate) :
    Resp System × DiskState :=
  if updateValid u then
    match update_loop now system_id u (load_systems d) with
    | some (s', systems') => (.ok 200 s', .valid systems')
    | none => (.err 404 "System not found", d)
  else (.err 422 "validation error", d)

/-- The scan loop of `delete_system`: remove the first record with a
matching id (`systems.pop(i)`), keeping every other record in order. -/
def delete_loop (system_id : String) : List System → Option (List System)
  | [] => none
  | s :: rest =>
    if s.system_id == system_id then some rest
    else
      match delete_loop system_id rest with
      | some rest' => some (s :: rest')
      | none => none

/-- `DELETE /api/systems/{system_id}` (`delete_system`): load, scan,
remove the first match and save (204, empty body); 404 (disk untouched)
when no record matches. -/
def delete_system (d : DiskState) (system_id : String) :
    Resp Unit × DiskState :=
  match delete_loop system_id (load_systems d) with
  | some systems' => (.ok 204 (), .valid systems')
  | none => (.err 404 "System not found", d)

/-- The ids of a record list, in order. -/
def system_ids (l : List System) : List String :=
  l.map (·.system_id)

/-- A sequence of create calls, each with its generated id, timestamp and
raw body, folded over the disk state. -/
def create_many (d : DiskState) : List (String × String × RawCreate) → DiskState
  | [] => d
  | (g, t, r) :: rest => create_many (create_system d g t r).2 rest

/-! ## Chat endpoint (`/api/chat`) and `generate_llm_response`

The network is a stream `net : Nat → NetOutcome`, one entry per POST the
handler issues (index `k` is the next unused entry). A response body is
abstracted to the JSON shapes the handler distinguishes. -/

/-- The decoded shape of one HTTP response body, as far as
`generate_llm_response` inspects it:
`chatCompletion content` is a JSON object with a non-empty `choices`
array whose first element has `message.content`; `legacyList text` is a
JSON array whose first element has `generated_text`; `errorObj e` is an
object with an `error` key (and no usable `choices`); `otherJson` is any
other decodable JSON; `unparseable emsg` means `response.json()` raises,
with `str(e) = emsg`. -/
inductive JsonBody where
  | chatCompletion (content : String)
  | legacyList (generated_text : String)
  | errorObj (error : String)
  | otherJson
  | unparseable (emsg : String)
deriving DecidableEq, Repr

/-- The outcome of one `client.post`: an `httpx.TimeoutException`, some
other exception with `str(e) = emsg`, or an HTTP response with a status
code and a body. -/
inductive NetOutcome where
  | timeout
  | exn (emsg : String)
  | resp (status : Nat) (body : JsonBody)
deriving Repr

/-- What escapes the `try` suite of `generate_llm_response`: a normal
return value, an escaped `httpx.TimeoutException`, or any other raised
exception carried as its `str(e)` (this includes the handler's own
`raise HTTPException(500, ...)`, which its own `except Exception` clause
catches). -/
inductive InnerOutcome where
  | ret (s : String)
  | timeoutExc
  | raisedMsg (emsg : String)
deriving Repr

/-- An `HTTPException(status_code, detail)` escaping a handler. -/
structure HTTPErr where
  status : Nat
  detail : String
deriving DecidableEq, Repr

/-- Python `sub in s` on strings. -/
def containsSub (s sub : String) : Bool :=
  (s.splitOn sub).length > 1

/-- The message returned when `HUGGINGFACE_API_TOKEN` is unset or empty
(emoji prefix of the source string omitted). -/
def noTokenMsg : String :=
  "Hugging Face API token not configured. Please add your token to enable AI responses. The backend is ready for integration once you provide your token."

/-- The detail of the 504 raised on `httpx.TimeoutException`. -/
def timeoutDetail : String :=
  "Request timeout - the model may be loading. Please try again in a moment."

/-- The fallback answer when a 200 response carries no usable text. -/
def apologyMsg : String :=
  "I'm sorry, I couldn't generate a helpful response at this time. Please try rephrasing your question."

/-- The token-issue diagnostic returned when a caught exception's string
mentions "404" or "Invalid credentials" (emoji and step list of the
source string abbreviated to its first line). -/
def tokenIssueMsg : String :=
  "**Token Issue Detected** The Hugging Face API token appears to be invalid or expired."

/-- The `except Exception as e` clause of `generate_llm_response`. -/
def genericExcMsg (emsg : String) : String :=
  if containsSub emsg "404" || containsSub emsg "Invalid credentials" then
    tokenIssueMsg
  else
    "I'm experiencing technical difficulties connecting to the AI service. Error: " ++
      emsg.take 100 ++ ". Please check your Hugging Face API token configuration."

/-- The POST (with the single retry the source performs when the first
response is a 503 "model loading"): returns the final outcome and the
index of the next unused network entry. -/
def doPost (net : Nat → NetOutcome) (k : Nat) : NetOutcome × Nat :=
  match net k with
  | .resp status body =>
    if status = 503 then (net (k + 1), k + 2) else (.resp status body, k + 1)
  | o => (o, k + 1)

/-- The two `except` clauses guarding the `try` suite of
`generate_llm_response`: an escaped `httpx.TimeoutException` becomes a
504 `HTTPException`; any other escaped exception (including the
handler's own raised 500 `HTTPException`) becomes a normally returned
diagnostic string. -/
def exceptClauses : InnerOutcome → Except HTTPErr String
  | .ret s => .ok s
  | .timeoutExc => .error ⟨504, timeoutDetail⟩
  | .raisedMsg emsg => .ok (genericExcMsg emsg)

/-- `generate_llm_response`, with an explicit fuel bounding the fallback
recursion. The source recurses at most once: the recursive call passes
`model = "google/flan-t5-base"`, for which the fallback guard
`model != "google/flan-t5-base"` is false, so with fuel 1 at the entry
point (`generate_llm_response` below) the fuel-0 branch is unreachable.
A `raise HTTPException(500, ...)` inside the `try` suite is caught by
the function's own `except Exception` clause, so it is modelled directly
as `InnerOutcome.raisedMsg` of the exception's string
`"500: Failed to generate response: ..."`; an `HTTPException` raised by
the recursive fallback call (a 504) is likewise caught and stringified. -/
def genAux : Nat → Option String → (Nat → NetOutcome) → Nat → String → Except HTTPErr String
  | fuel, hf_token, net, k, model =>
    if hf_token.getD "" = "" then .ok noTokenMsg
    else
      exceptClauses <|
        match doPost net k with
        | (.timeout, _) => .timeoutExc
        | (.exn emsg, _) => .raisedMsg emsg
        | (.resp status body, k') =>
          if status ≠ 200 then
            let error_detail :=
              match body with
              | .errorObj e => e
              | _ => "Hugging Face API error: " ++ toString status
            if model ≠ "google/flan-t5-base" ∧ (status = 400 ∨ status = 404 ∨ status = 422) then
              match fuel with
              | fuel' + 1 =>
                match genAux fuel' hf_token net k' "google/flan-t5-base" with
                | .ok s => .ret s
                | .error e => .raisedMsg (toString e.status ++ ": " ++ e.detail)
              | 0 => .raisedMsg ("500: Failed to generate response: " ++ error_detail)
            else .raisedMsg ("500: Failed to generate response: " ++ error_detail)
          else
            match body with
            | .chatCompletion content =>
              if content.trim ≠ "" then .ret content.trim else .ret apologyMsg
            | .legacyList generated_text =>
              if generated_text.trim ≠ "" then .ret generated_text.trim else .ret apologyMsg
            | .unparseable emsg => .raisedMsg emsg
            | _ => .ret apologyMsg

/-- `generate_llm_response` of `src/server/main.py` (entry point: fuel 1
suffices, see `genAux`). `max_tokens` and `temperature` only flow into
the request payload, which the `net` oracle already stands for, so they
are not parameters here. -/
def generate_llm_response (hf_token : Option String) (net : Nat → NetOutcome)
    (k : Nat) (model : String) : Except HTTPErr String :=
  genAux 1 hf_token net k model

/-- The body of a chat request (`ChatRequest`): `max_tokens` and
`temperature` are forwarded verbatim and play no role in control flow
beyond Python's falsy-`or` defaulting, so only `prompt` and `model` are
modelled. -/
structure ChatRequest where
  prompt : String
  model : Option String := some "microsoft/DialoGPT-medium"
deriving DecidableEq, Repr

/-- A successful chat response body (`ChatResponse`): exactly the fields
`response` and `model_used`. -/
structure ChatResponse where
  response : String
  model_used : String
deriving DecidableEq, Repr

/-- Python's `chat_request.model or "microsoft/DialoGPT-medium"`: `None`
and the empty string are both falsy. -/
def chosenModel (m : Option String) : String :=
  match m with
  | none => "microsoft/DialoGPT-medium"
  | some s => if s = "" then "microsoft/DialoGPT-medium" else s

/-- `POST /api/chat` (`chat_with_llm`): forward the prompt, re-raise any
`HTTPException` from the pipeline, and wrap a returned string as
`{response, model_used}`. (The handler's own `except Exception` clause,
mapping any other exception to a 500 "Failed to process chat request",
is unreachable here: the embedded pipeline only returns or raises
`HTTPException`s.) -/
def chat_with_llm (hf_token : Option String) (net : Nat → NetOutcome)
    (k : Nat) (req : ChatRequest) : Resp ChatResponse :=
  let model := chosenModel req.model
  match generate_llm_response hf_token net k model with
  | .ok s => .ok 200 ⟨s, model⟩
  | .error e => .err e.status e.detail

/-! ## Concrete fixtures (the spec's §8 concrete scenario) -/

/-- The create body of the spec's concrete scenario. -/
def reqA : RawCreate := {
  system_name := some "Billing"
  system_description := some "Handles invoices"
  business_steward_email := some "b@x.com"
  business_steward_full_name := some "B"
  security_steward_email := some "s@x.com"
  security_steward_full_name := some "S"
  technical_steward_email := some "t@x.com"
  technical_steward_full_name := some "T"
  status := none }

/-- `reqA` after validation. -/
def scA : SystemCreate := {
  system_name := "Billing"
  system_description := "Handles invoices"
  business_steward_email := "b@x.com"
  business_steward_full_name := "B"
  security_steward_email := "s@x.com"
  security_steward_full_name := "S"
  technical_steward_email := "t@x.com"
  technical_steward_full_name := "T"
  status := "active" }

/-- The record produced by creating `reqA` with id `SYS-000001-AAAAA` at
time `2024-01-01T00:00:00`. -/
def recA : System := {
  system_id := "SYS-000001-AAAAA"
  system_name := "Billing"
  system_description := "Handles invoices"
  business_steward_email := "b@x.com"
  business_steward_full_name := "B"
  security_steward_email := "s@x.com"
  security_steward_full_name := "S"
  technical_steward_email := "t@x.com"
  technical_steward_full_name := "T"
  status := "active"
  created_at := "2024-01-01T00:00:00"
  updated_at := "2024-01-01T00:00:00" }

/-- The update body `{status: "inactive"}`. -/
def statusInactive : SystemUpdate := { status := some "inactive" }

/-- A create body identical to `reqA` except that `system_name` is the
empty string. -/
def reqEmptyName : RawCreate := { reqA with system_name := some "" }

/-! ## Helper lemmas about the scan loops -/

/-- With a non-empty supplied field set, the update scan mutates exactly
the first matching record. -/
theorem update_loop_first_match (now id : String) (u : SystemUpdate)
    (hu : hasAnyField u = true) :
    ∀ (l₁ : List System) (s : System) (l₂ : List System),
      (∀ t ∈ l₁, t.system_id ≠ id) → s.system_id = id →
      update_loop now id u (l₁ ++ s :: l₂) =
        some ({ applyUpdate u s with updated_at := now },
          l₁ ++ { applyUpdate u s with updated_at := now } :: l₂) := by
  intro l₁
  induction l₁ with
  | nil =>
    intro s l₂ _ hs
    simp [update_loop, hs, hu]
  | cons t ts ih =>
    intro s l₂ hl hs
    have ht : (t.system_id == id) = false := by
      simp [hl t (by simp)]
    have hrec := ih s l₂ (fun x hx => hl x (by simp [hx])) hs
    simp [update_loop, ht, hrec]

/-- With an empty supplied field set, the update scan never returns. -/
theorem update_loop_empty (now id : String) (u : SystemUpdate)
    (hu : hasAnyField u = false) :
    ∀ l : List System, update_loop now id u l = none := by
  intro l
  induction l with
  | nil => simp [update_loop]
  | cons t ts ih => simp [update_loop, hu, ih]

/-- The delete scan removes exactly the first matching record. -/
theorem delete_loop_first_match (id : String) :
    ∀ (l₁ : List System) (s : System) (l₂ : List System),
      (∀ t ∈ l₁, t.system_id ≠ id) → s.system_id = id →
      delete_loop id (l₁ ++ s :: l₂) = some (l₁ ++ l₂) := by
  intro l₁
  induction l₁ with
  | nil =>
    intro s l₂ _ hs
    simp [delete_loop, hs]
  | cons t ts ih =>
    intro s l₂ hl hs
    have ht : (t.system_id == id) = false := by
      simp [hl t (by simp)]
    simp [delete_loop, ht, ih s l₂ (fun x hx => hl x (by simp [hx])) hs]

/-- The delete scan fails exactly on lists with no matching record. -/
theorem delete_loop_none (id : String) :
    ∀ l : List System, id ∉ system_ids l → delete_loop id l = none := by
  intro l
  induction l with
  | nil => simp [delete_loop]
  | cons t ts ih =>
    intro h
    simp only [system_ids, List.map_cons, List.mem_cons] at h
    push_neg at h
    have ht : (t.system_id == id) = false := by
      simp [Ne.symm h.1]
    have hts : id ∉ system_ids ts := by
      simpa [system_ids] using h.2
    simp [delete_loop, ht, ih hts]

/-- A successful delete on a list of records maps to `List.erase` on the
id list. -/
theorem delete_loop_mem (id : String) :
    ∀ l : List System, id ∈ system_ids l →
      ∃ l', delete_loop id l = some l' ∧
        system_ids l' = (system_ids l).erase id := by
  intro l
  induction l with
  | nil => simp [system_ids]
  | cons t ts ih =>
    intro h
    by_cases ht : t.system_id = id
    · refine ⟨ts, by simp [delete_loop, ht], ?_⟩
      simp [system_ids, List.erase_cons, ht]
    · have hmem : id ∈ system_ids ts := by
        simp only [system_ids, List.map_cons, List.mem_cons] at h
        exact h.resolve_left (fun hc => ht hc.symm)
      obtain ⟨l', hdel, hids⟩ := ih hmem
      refine ⟨t :: l', ?_, ?_⟩
      · simp [delete_loop, ht, hdel]
      · simp [system_ids, List.erase_cons, ht, hids]
        simp only [system_ids] at hids
        exact hids

/-- `find?` over a list with no matching id returns nothing. -/
theorem find_none_of_not_mem (id : String) (l : List System)
    (h : id ∉ system_ids l) :
    l.find? (fun s => s.system_id == id) = none := by
  rw [List.find?_eq_none]
  intro x hx
  simp only [beq_iff_eq]
  intro hc
  exact h (by simp only [system_ids, List.mem_map]; exact ⟨x, hx, hc⟩)

/-- `find?` skips a prefix containing no match. -/
theorem find_append_of_none (p : System → Bool) :
    ∀ (l₁ l₂ : List System), l₁.find? p = none →
      (l₁ ++ l₂).find? p = l₂.find? p := by
  intro l₁
  induction l₁ with
  | nil => simp
  | cons t ts ih =>
    intro l₂ h
    rw [List.find?_cons] at h
    rcases hp : p t with _ | _
    · rw [List.cons_append, List.find?_cons, hp]
      exact ih l₂ (by simpa [hp] using h)
    · simp [hp] at h

/-- The ids produced by a run of valid creates are the previous ids
followed by the generated ids, in order. -/
theorem create_many_ids :
    ∀ (steps : List (String × String × RawCreate)) (d : DiskState),
      (∀ st ∈ steps, (parseCreate st.2.2).isSome) →
      system_ids (load_systems (create_many d steps)) =
        system_ids (load_systems d) ++ steps.map (·.1) := by
  intro steps
  induction steps with
  | nil => intro d _; simp [create_many]
  | cons st rest ih =>
    intro d hv
    obtain ⟨g, t, r⟩ := st
    obtain ⟨sc, hsc⟩ := Option.isSome_iff_exists.mp (hv (g, t, r) (by simp))
    have hids : system_ids (load_systems (create_system d g t r).2) =
        system_ids (load_systems d) ++ [g] := by
      simp [create_system, hsc, load_systems, system_ids]
    calc system_ids (load_systems (create_many d ((g, t, r) :: rest)))
        = system_ids (load_systems (create_many (create_system d g t r).2 rest)) := by
          simp [create_many]
      _ = system_ids (load_systems (create_system d g t r).2) ++ rest.map (·.1) :=
          ih _ (fun x hx => hv x (by simp [hx]))
      _ = system_ids (load_systems d) ++ ((g, t, r) :: rest).map (·.1) := by
          simp [hids]

set_option linter.unnecessarySeqFocus false in
/-- Validation of a create body forces every steward email field to be
present and syntactically valid. -/
theorem parseCreate_emails (r : RawCreate) (sc : SystemCreate)
    (h : parseCreate r = some sc) :
    r.business_steward_email = some sc.business_steward_email ∧
      isValidEmail sc.business_steward_email = true ∧
    r.security_steward_email = some sc.security_steward_email ∧
      isValidEmail sc.security_steward_email = true ∧
    r.technical_steward_email = some sc.technical_steward_email ∧
      isValidEmail sc.technical_steward_email = true := by
  obtain ⟨nm, de, be, bn, se, sn, te, tn, st⟩ := r
  cases nm <;> cases de <;> cases be <;> cases bn <;> cases se <;> cases sn <;>
    cases te <;> cases tn <;>
    simp_all only [parseCreate, Option.some.injEq, reduceCtorEq] <;>
    (split at h
     · cases h
       simp_all [Bool.and_eq_true]
     · cases h)

/-- Validation fails when `system_name` or `system_description` is
absent. -/
theorem parseCreate_none_of_missing (r : RawCreate)
    (h : r.system_name = none ∨ r.system_description = none) :
    parseCreate r = none := by
  obtain ⟨nm, de, be, bn, se, sn, te, tn, st⟩ := r
  rcases h with h | h
  · subst h
    cases de <;> cases be <;> cases bn <;> cases se <;> cases sn <;>
      cases te <;> cases tn <;> rfl
  · subst h
    cases nm <;> cases be <;> cases bn <;> cases se <;> cases sn <;>
      cases te <;> cases tn <;> rfl

/-- Whatever the network does, the try/except wrapper of
`generate_llm_response` yields either a normally returned string or a
504 `HTTPException`. -/
theorem exceptClauses_cases (io : InnerOutcome) :
    (∃ s, exceptClauses io = Except.ok s) ∨
      exceptClauses io = Except.error ⟨504, timeoutDetail⟩ := by
  cases io <;> simp [exceptClauses]

/-- `generate_llm_response` either returns a string or raises exactly
the 504 timeout `HTTPException`. -/
theorem gen_ok_or_timeout (hf_token : Option String) (net : Nat → NetOutcome)
    (k : Nat) (model : String) :
    (∃ s, generate_llm_response hf_token net k model = Except.ok s) ∨
      generate_llm_response hf_token net k model =
        Except.error ⟨504, timeoutDetail⟩ := by
  unfold generate_llm_response
  rw [genAux]
  by_cases htok : hf_token.getD "" = ""
  · rw [if_pos htok]
    exact Or.inl ⟨_, rfl⟩
  · rw [if_neg htok]
    exact exceptClauses_cases _

/-! ## The claims -/

/-- C1: the code evaluated at the failing input of the claim "for every
update request whose system_id matches an existing record, the update
succeeds with 200 and refreshes updated_at, even when the set of
supplied fields in the body is empty": with `recA` in the store and an
update body supplying no fields, `update_system` answers
404 "System not found" and leaves the store (and `updated_at`)
untouched, instead of the claimed 200 with a refreshed `updated_at`. -/
theorem C1_empty_update_404 :
    update_system (DiskState.valid [recA]) "2024-01-02T00:00:00"
        "SYS-000001-AAAAA" {} =
      (Resp.err 404 "System not found", DiskState.valid [recA]) := by
  rfl

/-- C2: round-trip — for every valid create payload, creating it and
then getting the returned system_id yields exactly the record the create
returned, with `created_at = updated_at` (the generated id is a
nondeterministic input; the hypothesis records that it does not collide
with an id already in the store, which the store itself never checks). -/
theorem C2_create_get_roundtrip (d : DiskState) (gen_id now : String)
    (r : RawCreate) (sc : SystemCreate)
    (hp : parseCreate r = some sc)
    (hfresh : gen_id ∉ system_ids (load_systems d)) :
    ∃ sys : System,
      (create_system d gen_id now r).1 = Resp.ok 201 sys ∧
      sys.system_id = gen_id ∧
      get_system (create_system d gen_id now r).2 gen_id = Resp.ok 200 sys ∧
      sys.created_at = sys.updated_at := by
  unfold create_system
  rw [hp]
  refine ⟨_, rfl, rfl, ?_, rfl⟩
  unfold get_system
  show (match (load_systems d ++ [_]).find? _ with
    | some s => Resp.ok 200 s
    | none => Resp.err 404 "System not found") = _
  rw [find_append_of_none _ (load_systems d) _
    (find_none_of_not_mem gen_id (load_systems d) hfresh)]
  simp [List.find?]

/-- Witness for C2 at the spec's concrete payload on an empty store. -/
theorem C2_create_get_roundtrip_witness :
    parseCreate reqA = some scA ∧
    "SYS-000001-AAAAA" ∉ system_ids (load_systems DiskState.missing) ∧
    ∃ sys : System,
      (create_system DiskState.missing "SYS-000001-AAAAA"
          "2024-01-01T00:00:00" reqA).1 = Resp.ok 201 sys ∧
      sys.system_id = "SYS-000001-AAAAA" ∧
      get_system (create_system DiskState.missing "SYS-000001-AAAAA"
          "2024-01-01T00:00:00" reqA).2 "SYS-000001-AAAAA" = Resp.ok 200 sys ∧
      sys.created_at = sys.updated_at :=
  ⟨by decide, by decide,
    C2_create_get_roundtrip DiskState.missing "SYS-000001-AAAAA"
      "2024-01-01T00:00:00" reqA scA (by decide) (by decide)⟩

/-- C3 counterexample: the id generator is a nondeterministic input and
the store performs no collision check, so when two create calls receive
the same generated identifier (possible in the source: same
six-digit timestamp suffix within a second and the same five random
characters), both succeed and the record set holds two records with the
same system_id — creating 2 records did not produce 2 distinct ids. -/
theorem C3_collision_counterexample :
    (load_systems (create_many DiskState.missing
        [("SYS-000001-AAAAA", "2024-01-01T00:00:00", reqA),
         ("SYS-000001-AAAAA", "2024-01-01T00:00:01", reqA)])).length = 2 ∧
    ¬ (system_ids (load_systems (create_many DiskState.missing
        [("SYS-000001-AAAAA", "2024-01-01T00:00:00", reqA),
         ("SYS-000001-AAAAA", "2024-01-01T00:00:01", reqA)]))).Nodup := by
  constructor
  · rfl
  · decide

/-- C3 (amended): a run of valid creates appends exactly the generated
identifiers to the id set, so the ids are pairwise distinct whenever the
generated identifiers are distinct among themselves and from the
pre-existing ids; the store itself never checks. -/
theorem C3_unique_ids (d : DiskState)
    (steps : List (String × String × RawCreate))
    (hv : ∀ st ∈ steps, (parseCreate st.2.2).isSome)
    (hnodup : (system_ids (load_systems d) ++ steps.map (·.1)).Nodup) :
    system_ids (load_systems (create_many d steps)) =
      system_ids (load_systems d) ++ steps.map (·.1) ∧
    (system_ids (load_systems (create_many d steps))).Nodup := by
  have h := create_many_ids steps d hv
  exact ⟨h, h ▸ hnodup⟩

/-- Witness for C3 (amended): two creates with distinct generated ids on
an empty store yield distinct system_ids. -/
theorem C3_unique_ids_witness :
    system_ids (load_systems (create_many DiskState.missing
        [("SYS-000001-AAAAA", "2024-01-01T00:00:00", reqA),
         ("SYS-000002-BBBBB", "2024-01-01T00:00:01", reqA)])) =
      system_ids (load_systems DiskState.missing) ++
        ["SYS-000001-AAAAA", "SYS-000002-BBBBB"] ∧
    (system_ids (load_systems (create_many DiskState.missing
        [("SYS-000001-AAAAA", "2024-01-01T00:00:00", reqA),
         ("SYS-000002-BBBBB", "2024-01-01T00:00:01", reqA)]))).Nodup :=
  C3_unique_ids DiskState.missing
    [("SYS-000001-AAAAA", "2024-01-01T00:00:00", reqA),
     ("SYS-000002-BBBBB", "2024-01-01T00:00:01", reqA)]
    (by decide) (by decide)

/-- C4: an update supplying only `{status: "inactive"}` on an existing
record changes only that record's `status` and `updated_at` (every other
field appears unchanged in the result record), leaves every other record
untouched (the surrounding lists `l₁`, `l₂` are preserved verbatim), and
the new `updated_at` is strictly greater than the old one (the wall
clock `now` is a nondeterministic input; the hypothesis records that it
is strictly later than the stored timestamp). -/
theorem C4_partial_update (d : DiskState) (now id : String)
    (l₁ : List System) (s : System) (l₂ : List System)
    (hload : load_systems d = l₁ ++ s :: l₂)
    (hpre : ∀ t ∈ l₁, t.system_id ≠ id)
    (hs : s.system_id = id)
    (hlt : s.updated_at < now) :
    update_system d now id statusInactive =
      (Resp.ok 200 { s with status := "inactive", updated_at := now },
       DiskState.valid
         (l₁ ++ { s with status := "inactive", updated_at := now } :: l₂)) ∧
    s.updated_at <
      ({ s with status := "inactive", updated_at := now } : System).updated_at := by
  have hloop := update_loop_first_match now id statusInactive (by rfl) l₁ s l₂ hpre hs
  have happ : ({ applyUpdate statusInactive s with updated_at := now } : System) =
      { s with status := "inactive", updated_at := now } := by rfl
  rw [happ] at hloop
  have hval : updateValid statusInactive = true := by rfl
  refine ⟨?_, hlt⟩
  simp [update_system, hval, hload, hloop]

/-- Witness for C4 at the concrete record `recA`. -/
theorem C4_partial_update_witness :
    update_system (DiskState.valid [recA]) "2024-01-02T00:00:00"
        "SYS-000001-AAAAA" statusInactive =
      (Resp.ok 200
        { recA with status := "inactive", updated_at := "2024-01-02T00:00:00" },
       DiskState.valid
         ([] ++ { recA with status := "inactive", updated_at := "2024-01-02T00:00:00" } :: [])) ∧
    recA.updated_at <
      ({ recA with status := "inactive", updated_at := "2024-01-02T00:00:00" } : System).updated_at :=
  C4_partial_update (DiskState.valid [recA]) "2024-01-02T00:00:00"
    "SYS-000001-AAAAA" [] recA [] (by rfl) (by simp) (by rfl)
    (by rw [String.lt_iff_toList_lt]; decide)

/-- C5: a create whose body carries a syntactically invalid email in any
steward email field is rejected with a 422 before any store mutation:
the disk state, and hence the persisted record count, is unchanged. -/
theorem C5_invalid_email_422 (d : DiskState) (gen_id now : String)
    (r : RawCreate) (v : String)
    (hfield : r.business_steward_email = some v ∨
      r.security_steward_email = some v ∨ r.technical_steward_email = some v)
    (hbad : isValidEmail v = false) :
    (∃ detail, (create_system d gen_id now r).1 = Resp.err 422 detail) ∧
    (create_system d gen_id now r).2 = d ∧
    (load_systems (create_system d gen_id now r).2).length =
      (load_systems d).length := by
  have hnone : parseCreate r = none := by
    cases hp : parseCreate r with
    | none => rfl
    | some sc =>
      obtain ⟨h1, h2, h3, h4, h5, h6⟩ := parseCreate_emails r sc hp
      rcases hfield with hf | hf | hf
      · rw [hf] at h1
        rw [Option.some.inj h1] at hbad
        rw [h2] at hbad
        cases hbad
      · rw [hf] at h3
        rw [Option.some.inj h3] at hbad
        rw [h4] at hbad
        cases hbad
      · rw [hf] at h5
        rw [Option.some.inj h5] at hbad
        rw [h6] at hbad
        cases hbad
  refine ⟨⟨"validation error", ?_⟩, ?_, ?_⟩ <;> simp [create_system, hnone]

/-- Witness for C5 with `business_steward_email = "not-an-email"`. -/
theorem C5_invalid_email_422_witness :
    (∃ detail, (create_system DiskState.missing "SYS-000001-AAAAA"
        "2024-01-01T00:00:00"
        { reqA with business_steward_email := some "not-an-email" }).1 =
      Resp.err 422 detail) ∧
    (create_system DiskState.missing "SYS-000001-AAAAA" "2024-01-01T00:00:00"
        { reqA with business_steward_email := some "not-an-email" }).2 =
      DiskState.missing ∧
    (load_systems (create_system DiskState.missing "SYS-000001-AAAAA"
        "2024-01-01T00:00:00"
        { reqA with business_steward_email := some "not-an-email" }).2).length =
      (load_systems DiskState.missing).length :=
  C5_invalid_email_422 DiskState.missing "SYS-000001-AAAAA"
    "2024-01-01T00:00:00"
    { reqA with business_steward_email := some "not-an-email" }
    "not-an-email" (Or.inl (by rfl)) (by decide)

/-- C6: under the uniqueness invariant on stored ids, a delete of an
existing id succeeds with 204 and an empty body, after which a get of
the same id answers 404 with detail "System not found", and a second
delete of the same id answers 404 as well. -/
theorem C6_delete_then_get (d : DiskState) (id : String)
    (hnodup : (system_ids (load_systems d)).Nodup)
    (hmem : id ∈ system_ids (load_systems d)) :
    (delete_system d id).1 = Resp.ok 204 () ∧
    get_system (delete_system d id).2 id = Resp.err 404 "System not found" ∧
    (delete_system (delete_system d id).2 id).1 =
      Resp.err 404 "System not found" := by
  obtain ⟨l', hdel, hids⟩ := delete_loop_mem id (load_systems d) hmem
  have hnot : id ∉ system_ids l' := by
    rw [hids]
    intro hin
    exact ((List.Nodup.mem_erase_iff hnodup).mp hin).1 rfl
  have hds : delete_system d id = (Resp.ok 204 (), DiskState.valid l') := by
    simp [delete_system, hdel]
  refine ⟨by simp [hds], ?_, ?_⟩
  · rw [hds]
    simp [get_system, load_systems, find_none_of_not_mem id l' hnot]
  · rw [hds]
    simp [delete_system, load_systems, delete_loop_none id l' hnot]

/-- Witness for C6 deleting `recA` from a one-record store. -/
theorem C6_delete_then_get_witness :
    (delete_system (DiskState.valid [recA]) "SYS-000001-AAAAA").1 =
      Resp.ok 204 () ∧
    get_system (delete_system (DiskState.valid [recA]) "SYS-000001-AAAAA").2
        "SYS-000001-AAAAA" = Resp.err 404 "System not found" ∧
    (delete_system
        (delete_system (DiskState.valid [recA]) "SYS-000001-AAAAA").2
        "SYS-000001-AAAAA").1 = Resp.err 404 "System not found" :=
  C6_delete_then_get (DiskState.valid [recA]) "SYS-000001-AAAAA"
    (by decide) (by decide)

/-- C7: `load_systems` is total over every state of persistent storage —
a missing or unreadable/corrupt backing file degrades to the empty
sequence rather than an error — and `get_all_systems` answers 200 with
the loaded (possibly empty) sequence, in particular 200 with the empty
array on a missing or corrupt store. -/
theorem C7_load_resilience :
    (∀ d : DiskState, get_all_systems d = Resp.ok 200 (load_systems d)) ∧
    load_systems DiskState.missing = [] ∧
    load_systems DiskState.corrupt = [] ∧
    get_all_systems DiskState.missing = Resp.ok 200 [] ∧
    get_all_systems DiskState.corrupt = Resp.ok 200 [] :=
  ⟨fun _ => rfl, rfl, rfl, rfl, rfl⟩

/-- C8 counterexample: a create whose `system_name` is the empty string
is NOT rejected — `SystemCreate` declares the field as a plain string
with no non-empty constraint — so the request succeeds with 201 and a
record with an empty name is persisted. -/
theorem C8_empty_name_accepted :
    (create_system DiskState.missing "SYS-000001-AAAAA" "2024-01-01T00:00:00"
        reqEmptyName).1 = Resp.ok 201 { recA with system_name := "" } ∧
    load_systems (create_system DiskState.missing "SYS-000001-AAAAA"
        "2024-01-01T00:00:00" reqEmptyName).2 =
      [{ recA with system_name := "" }] := by
  constructor <;> rfl

/-- C8 (amended): `system_name` and `system_description` are required —
a create request missing either is rejected with 422 and no record is
created — but the empty string is an accepted value (no non-empty
validation), per the counterexample. -/
theorem C8_missing_field_422 (d : DiskState) (gen_id now : String)
    (r : RawCreate)
    (h : r.system_name = none ∨ r.system_description = none) :
    (∃ detail, (create_system d gen_id now r).1 = Resp.err 422 detail) ∧
    (create_system d gen_id now r).2 = d := by
  have hn := parseCreate_none_of_missing r h
  exact ⟨⟨"validation error", by simp [create_system, hn]⟩,
    by simp [create_system, hn]⟩

/-- Witness for C8 (amended) with `system_name` absent. -/
theorem C8_missing_field_422_witness :
    (∃ detail, (create_system DiskState.missing "SYS-000001-AAAAA"
        "2024-01-01T00:00:00" { reqA with system_name := none }).1 =
      Resp.err 422 detail) ∧
    (create_system DiskState.missing "SYS-000001-AAAAA" "2024-01-01T00:00:00"
        { reqA with system_name := none }).2 = DiskState.missing :=
  C8_missing_field_422 DiskState.missing "SYS-000001-AAAAA"
    "2024-01-01T00:00:00" { reqA with system_name := none } (Or.inl (by rfl))

/-- C9 counterexample: a collaborator timeout (an
`httpx.TimeoutException` on the first POST) reaches the chat caller as a
504 — not the claimed 500 — because `chat_with_llm` re-raises the
pipeline's own `HTTPException`s verbatim. -/
theorem C9_timeout_504 :
    respStatus (chat_with_llm (some "token") (fun _ => NetOutcome.timeout) 0
      { prompt := "hello" }) = 504 ∧ (504 : Nat) ≠ 500 :=
  ⟨rfl, by decide⟩

/-- C9 (amended): a collaborator timeout on the initial request is the
only fault that reaches the chat caller as an error, and it carries
status 504 with the timeout message; every other collaborator failure is
converted into a normal 200 response whose body is a human-readable
diagnostic; and every 200 response has exactly the shape
`{response, model_used}` with `model_used` the requested (or default)
model. -/
theorem C9_chat_outcomes (hf_token : Option String) (net : Nat → NetOutcome)
    (k : Nat) (req : ChatRequest) :
    (∃ body : ChatResponse,
        chat_with_llm hf_token net k req = Resp.ok 200 body ∧
        body.model_used = chosenModel req.model) ∨
    chat_with_llm hf_token net k req = Resp.err 504 timeoutDetail := by
  rcases gen_ok_or_timeout hf_token net k (chosenModel req.model) with ⟨s, hs⟩ | herr
  · exact Or.inl ⟨⟨s, chosenModel req.model⟩, by simp [chat_with_llm, hs], rfl⟩
  · exact Or.inr (by simp [chat_with_llm, herr])

/-- C10: the operations preserve sequence order — create appends the new
record at the end of the stored sequence, update replaces the (first)
matched record in place leaving the surrounding records verbatim, delete
removes exactly the matched record keeping the relative order of all
others, and get_all returns the stored sequence in order. -/
theorem C10_order_preserved :
    (∀ (d : DiskState) (gen_id now : String) (r : RawCreate)
        (sc : SystemCreate), parseCreate r = some sc →
      ∃ sys : System, (create_system d gen_id now r).1 = Resp.ok 201 sys ∧
        load_systems (create_system d gen_id now r).2 =
          load_systems d ++ [sys]) ∧
    (∀ (d : DiskState) (now id : String) (u : SystemUpdate)
        (l₁ : List System) (s : System) (l₂ : List System),
      updateValid u = true → hasAnyField u = true →
      load_systems d = l₁ ++ s :: l₂ →
      (∀ t ∈ l₁, t.system_id ≠ id) → s.system_id = id →
      load_systems (update_system d now id u).2 =
        l₁ ++ { applyUpdate u s with updated_at := now } :: l₂) ∧
    (∀ (d : DiskState) (id : String)
        (l₁ : List System) (s : System) (l₂ : List System),
      load_systems d = l₁ ++ s :: l₂ →
      (∀ t ∈ l₁, t.system_id ≠ id) → s.system_id = id →
      load_systems (delete_system d id).2 = l₁ ++ l₂) ∧
    (∀ d : DiskState, get_all_systems d = Resp.ok 200 (load_systems d)) := by
  refine ⟨?_, ?_, ?_, fun _ => rfl⟩
  · intro d gen_id now r sc hp
    unfold create_system
    rw [hp]
    exact ⟨_, rfl, rfl⟩
  · intro d now id u l₁ s l₂ hval hu hload hpre hs
    have hloop := update_loop_first_match now id u hu l₁ s l₂ hpre hs
    simp [update_system, hval, hload, hloop]
    rfl
  · intro d id l₁ s l₂ hload hpre hs
    have hloop := delete_loop_first_match id l₁ s l₂ hpre hs
    simp [delete_system, hload, hloop]
    rfl

/-- Witness for C10 at concrete inputs: a create on the empty store, a
status update and a delete on a one-record store, and get_all on the
empty store. -/
theorem C10_order_preserved_witness :
    (∃ sys : System, (create_system DiskState.missing "SYS-000001-AAAAA"
        "2024-01-01T00:00:00" reqA).1 = Resp.ok 201 sys ∧
      load_systems (create_system DiskState.missing "SYS-000001-AAAAA"
          "2024-01-01T00:00:00" reqA).2 =
        load_systems DiskState.missing ++ [sys]) ∧
    load_systems (update_system (DiskState.valid [recA]) "2024-01-02T00:00:00"
        "SYS-000001-AAAAA" statusInactive).2 =
      [] ++ { applyUpdate statusInactive recA with
        updated_at := "2024-01-02T00:00:00" } :: [] ∧
    load_systems (delete_system (DiskState.valid [recA])
        "SYS-000001-AAAAA").2 = [] ++ [] ∧
    get_all_systems DiskState.missing =
      Resp.ok 200 (load_systems DiskState.missing) :=
  ⟨C10_order_preserved.1 DiskState.missing "SYS-000001-AAAAA"
      "2024-01-01T00:00:00" reqA scA (by decide),
    C10_order_preserved.2.1 (DiskState.valid [recA]) "2024-01-02T00:00:00"
      "SYS-000001-AAAAA" statusInactive [] recA [] (by decide) (by decide)
      (by rfl) (by simp) (by rfl),
    C10_order_preserved.2.2.1 (DiskState.valid [recA]) "SYS-000001-AAAAA"
      [] recA [] (by rfl) (by simp) (by rfl),
    C10_order_preserved.2.2.2 DiskState.missing⟩

end Catalog
